import Mathlib

/-!
# Verification of the embargo access-policy evaluator and the course API views

Shallow embedding of `common/djangoapps/embargo/api.py` and
`lms/djangoapps/course_api/v0/views.py` from the repository, together with
proofs about the access-check policy, the profile-country cache and the
course views' error behaviour.

External collaborators (the ORM-backed models in `embargo/models.py`, the
`opaque_keys` parser, `courseware.courses` and the geolocation resolver) are
not part of the sources; they appear here as explicit environment parameters,
and the few whose behaviour a claim depends on are modelled from the spec and
marked as such in their doc comments.

Stateful pieces (the Django cache) are embedded by explicit state passing,
and every collaborator consulted during an evaluation is recorded in an
event trace, so that "this check never runs" properties are provable.
-/

namespace Embargo

/-- The two rule types of `CountryAccessRule` (`WHITE_LIST`, `BLACK_LIST` in
`embargo/models.py`). -/
inductive RuleType
  | white_list
  | black_list
deriving DecidableEq, Repr

/-- A country-access rule: a course, a country code and a rule type. -/
structure CountryAccessRule where
  course_id : String
  country : String
  rule_type : RuleType
deriving DecidableEq, Repr

/-- The current `IPFilter`: blacklisted and whitelisted IP address strings. -/
structure IPFilter where
  blacklist_ips : List String
  whitelist_ips : List String
deriving DecidableEq, Repr

/-- A user profile; `country_code` is `profile.country.code`, which may be
`None` in the source. -/
structure Profile where
  country_code : Option String
deriving DecidableEq, Repr

/-- A Django user: a numeric id and an optional profile (the source reads the
profile with `getattr(user, 'profile', None)`). -/
structure User where
  id : Nat
  profile : Option Profile
deriving DecidableEq, Repr

/-- The read-only environment consulted by `check_access`: the restricted
course registry, the IP filter, the country-access rules and the two
geolocation databases (IPv4 and IPv6).  A geolocation miss is `none`. -/
structure Env where
  restricted_courses : List String
  ipfilter : IPFilter
  rules : List CountryAccessRule
  geoip : String → Option String
  geoipv6 : String → Option String

/-- The Django cache, embedded as an association list from keys to stored
string values; `cache.get` returns `none` on a miss. -/
abbrev Cache := List (String × String)

/-- `cache.get key`. -/
def cache_get (c : Cache) (key : String) : Option String :=
  match c.find? (fun p => p.1 == key) with
  | some p => some p.2
  | none => none

/-- `cache.set key value`. -/
def cache_set (c : Cache) (key v : String) : Cache :=
  (key, v) :: c

/-- Observable events: one per consultation of an external collaborator
during an evaluation.  They record which checks ran and in which order. -/
inductive Event
  | restricted_check (course_id : String)
  | ip_lists_check (ip_addr : String)
  | geo_lookup (ip_addr : String)
  | country_check (course_id : String) (country : Option String)
  | cache_read (key : String)
  | profile_read (user_id : Nat)
  | cache_write (key : String) (v : String)
deriving DecidableEq, Repr

/-- The taxonomy of denial reasons, one constructor per entry of the
`REASONS` dictionary of `embargo/api.py`, carrying the data the source
formats into the reason string. -/
inductive Reason
  | ip_blacklist (ip_addr : String) (from_course : String)
  | ip_country (ip_addr : String) (ip_country : Option String) (from_course : String)
  | profile_country (user_id : Nat) (profile_country : String) (from_course : String)
deriving DecidableEq, Repr

/-- `_from_course_msg` of `embargo/api.py`. -/
def from_course_msg (course_id : String) (course_is_embargoed : Bool) : String :=
  if course_is_embargoed then "from course " ++ course_id else ""

/-- Modelled from the spec: `RestrictedCourse.is_restricted_course` lives in
`embargo/models.py`, which is not among the sources; per the spec the
registry is a lookup "course identifier → boolean is restricted", embedded as
membership in the environment's restricted-course list. -/
def is_restricted_course (env : Env) (course_key : String) : Bool :=
  env.restricted_courses.contains course_key

/-- `_check_ip_lists` of `embargo/api.py`: returns `True` when the address is
blacklisted, and otherwise `None` (both when whitelisted and when on neither
list — the function falls off its end). -/
def check_ip_lists (f : IPFilter) (ip_addr : String) : Option Bool :=
  if f.blacklist_ips.contains ip_addr then
    some true
  else if f.whitelist_ips.contains ip_addr then
    none
  else
    none

/-- Python truthiness of the `Option Bool` result of `_check_ip_lists`. -/
def truthy : Option Bool → Bool
  | some b => b
  | none => false

/-- Modelled from the spec: `CountryAccessRule.check_country_access` lives in
`embargo/models.py`, which is not among the sources.  Per the spec, a country
is blocked for a course iff a matching deny (black-list) rule exists, or an
allow (white-list) rule set exists for the course and the country is absent
from it; absence of a country code (a geolocation miss or an empty profile
country) matches no rule — the evaluator fails open. -/
def check_country_access (rules : List CountryAccessRule) (course_id : String)
    (country : Option String) : Bool :=
  match country with
  | none => false
  | some c =>
    if c = "" then false
    else
      (rules.any fun r =>
        r.course_id == course_id && r.country == c && r.rule_type == RuleType.black_list)
      || (let allow := rules.filter fun r =>
            r.course_id == course_id && r.rule_type == RuleType.white_list
          !allow.isEmpty && allow.all fun r => r.country != c)

/-- `_check_user_country` of `embargo/api.py`: delegates to
`CountryAccessRule.check_country_access`. -/
def check_user_country (rules : List CountryAccessRule) (country_code : Option String)
    (course_id : String) : Bool :=
  check_country_access rules course_id country_code

/-- Python's `str.upper()` on the character data. -/
def upper (s : String) : String :=
  ⟨s.data.map Char.toUpper⟩

/-- The cache key `u'user.{user_id}.profile.country'`. -/
def cache_key_for (user : User) : String :=
  "user." ++ toString user.id ++ ".profile.country"

/-- The value derived from the user's profile on a cache miss: the upper-cased
profile country code, or `""` when the user has no profile or the profile's
country code is `None`. -/
def profile_country_value (user : User) : String :=
  match user.profile with
  | some p =>
    match p.country_code with
    | some code => upper code
    | none => ""
  | none => ""

/-- `get_user_country_from_profile` of `embargo/api.py`: a read-through
cache.  Returns the value, the new cache state, and the trace of cache and
profile accesses. -/
def get_user_country_from_profile (user : User) (c : Cache) :
    String × Cache × List Event :=
  let key := cache_key_for user
  match cache_get c key with
  | some v => (v, c, [Event.cache_read key])
  | none =>
    let pc := profile_country_value user
    (pc, cache_set c key pc,
      [Event.cache_read key, Event.profile_read user.id, Event.cache_write key pc])

/-- `_country_code_from_ip` of `embargo/api.py`: the IPv6 database when the
address contains a colon, the IPv4 database otherwise. -/
def country_code_from_ip (env : Env) (ip_addr : String) : Option String :=
  if ip_addr.data.contains ':' then env.geoipv6 ip_addr else env.geoip ip_addr

/-- Modelled from the spec: `unique_id_for_user` lives in `student/models.py`,
which is not among the sources; the spec requires only a stable anonymized
identifier for the user. -/
def unique_id_for_user (user : User) : Nat :=
  user.id

/-- `check_access` of `embargo/api.py`: the access-policy evaluator.
Returns the decision (`none` is Allow, `some r` is Deny with reason `r`),
the cache state after the evaluation, and the trace of collaborator
consultations. -/
def check_access (env : Env) (user : User) (ip_address : String)
    (course_key : String) (c : Cache) : Option Reason × Cache × List Event :=
  let course_is_restricted := is_restricted_course env course_key
  if course_is_restricted = false then
    (none, c, [Event.restricted_check course_key])
  else
    let ev1 := [Event.restricted_check course_key, Event.ip_lists_check ip_address]
    if truthy (check_ip_lists env.ipfilter ip_address) then
      (some (Reason.ip_blacklist ip_address (from_course_msg course_key course_is_restricted)),
        c, ev1)
    else
      let user_country_from_ip := country_code_from_ip env ip_address
      let ev2 := ev1 ++
        [Event.geo_lookup ip_address, Event.country_check course_key user_country_from_ip]
      if check_user_country env.rules user_country_from_ip course_key then
        (some (Reason.ip_country ip_address user_country_from_ip
          (from_course_msg course_key course_is_restricted)), c, ev2)
      else
        let res := get_user_country_from_profile user c
        let user_country_from_profile := res.1
        let ev3 := ev2 ++ res.2.2 ++
          [Event.country_check course_key (some user_country_from_profile)]
        if check_user_country env.rules (some user_country_from_profile) course_key then
          (some (Reason.profile_country (unique_id_for_user user) user_country_from_profile
            (from_course_msg course_key course_is_restricted)), res.2.1, ev3)
        else
          (none, res.2.1, ev3)

/-- Looking a key up right after setting it hits the freshly stored value. -/
theorem cache_get_set (c : Cache) (k v : String) :
    cache_get (cache_set c k v) k = some v := by
  simp [cache_get, cache_set, List.find?]

/-- The profile lookup always begins by reading the cache, so its trace
always contains the cache-read event. -/
theorem cache_read_mem_profile_trace (user : User) (c : Cache) :
    Event.cache_read (cache_key_for user) ∈ (get_user_country_from_profile user c).2.2 := by
  unfold get_user_country_from_profile
  cases h : cache_get c (cache_key_for user) <;> simp [h]

end Embargo

namespace CourseApi

/-- The exceptions in play in `course_api/v0/views.py`: `InvalidKeyError`
(raised by the `opaque_keys` parser; a direct `Exception` subclass, not a
`ValueError`), `ValueError` (raised by `courseware.courses.get_course` when
the course does not exist), and Django's `Http404`. -/
inductive Exc
  | invalid_key (s : String)
  | value_error (msg : String)
  | http404
deriving DecidableEq, Repr

/-- A course descriptor; `id` is the serialized course key and `raw_grader`
the raw grading-policy data returned by `CourseGradingPolicy`. -/
structure Course where
  id : String
  raw_grader : List String
deriving DecidableEq, Repr

/-- The modulestore as consulted by the views: the full course list
(`get_courses`), existence (`has_course`), lookup (`get_course`, `none` when
the course does not exist) and the structure payload
(`get_course_structure`). -/
structure ModuleStore where
  courses : List Course
  has_course : String → Bool
  get_course : String → Option Course
  get_course_structure : String → String

/-- The environment of the views: `from_string` is `CourseKey.from_string`,
which either parses the serialized id to a course key or fails with the
parser's exception. -/
structure ViewEnv where
  from_string : String → Except Exc String
  store : ModuleStore

/-- Modelled from the spec: `courseware.courses.get_course` is not among the
sources; it returns the modulestore's course and raises `ValueError` when no
course exists — the not-found condition the views' docstring and tests
require to surface as a 404. -/
def courses_get_course (env : ViewEnv) (course_key : String) : Except Exc Course :=
  match env.store.get_course course_key with
  | some c => Except.ok c
  | none => Except.error (Exc.value_error ("Course not found: " ++ course_key))

/-- `CourseViewMixin.get_course_or_404`: parses the id, fetches the course,
and converts a `ValueError` — and only a `ValueError` — to `Http404`. -/
def get_course_or_404 (env : ViewEnv) (course_id : String) : Except Exc Course :=
  match (do
      let course_key ← env.from_string course_id
      courses_get_course env course_key : Except Exc Course) with
  | Except.ok c => Except.ok c
  | Except.error (Exc.value_error _) => Except.error Exc.http404
  | Except.error e => Except.error e

/-- `CourseStructure.get_object`: parses the id with no exception handler,
raises `Http404` when the modulestore has no such course, and otherwise
returns the course structure. -/
def CourseStructure.get_object (env : ViewEnv) (course_id : String) :
    Except Exc String := do
  let course_key ← env.from_string course_id
  if env.store.has_course course_key = false then
    Except.error Exc.http404
  else
    Except.ok (env.store.get_course_structure course_key)

/-- `CourseGradingPolicy.get_queryset`: parses the id with no exception
handler, raises `Http404` when the modulestore returns no course, and
otherwise returns the course's raw grading data. -/
def CourseGradingPolicy.get_queryset (env : ViewEnv) (course_id : String) :
    Except Exc (List String) := do
  let course_key ← env.from_string course_id
  match env.store.get_course course_key with
  | none => Except.error Exc.http404
  | some course => Except.ok course.raw_grader

/-- The per-id fetch loop of `CourseList.get_queryset`: parse each id and
fetch its course, propagating any exception. -/
def fetch_courses (env : ViewEnv) : List String → Except Exc (List Course)
  | [] => Except.ok []
  | cid :: rest => do
    let course_key ← env.from_string cid
    let c ← courses_get_course env course_key
    let cs ← fetch_courses env rest
    Except.ok (c :: cs)

/-- The ordering `key=lambda x: x.id` used by `results.sort`: lexicographic
order on the serialized course id. -/
def by_id (a b : Course) : Prop :=
  a.id.data ≤ b.id.data

instance : DecidableRel by_id :=
  fun a b => inferInstanceAs (Decidable (a.id.data ≤ b.id.data))

instance : IsTotal Course by_id :=
  ⟨fun a b => le_total a.id.data b.id.data⟩

instance : IsTrans Course by_id :=
  ⟨fun _ _ _ h h2 => le_trans h h2⟩

/-- `CourseList.get_queryset`: when the `course_id` query parameter is
truthy, split it on commas and fetch each course; otherwise list all
courses from the modulestore; in both cases sort the results by course id
(`results.sort(key=lambda x: x.id)`, a stable sort, embedded as insertion
sort by the same key). -/
def CourseList.get_queryset (env : ViewEnv) (query : Option String) :
    Except Exc (List Course) :=
  (match query with
    | some s =>
      if s ≠ "" then fetch_courses env (s.splitOn ",")
      else Except.ok env.store.courses
    | none => Except.ok env.store.courses) >>= fun course_descriptors =>
  Except.ok (course_descriptors.insertionSort by_id)

end CourseApi

namespace Embargo

/-- A concrete environment for evaluations: one embargoed course with a
deny rule for country "CU", an IP that is both blacklisted and whitelisted,
and a geolocation database that resolves "9.9.9.9" to "CU" and misses on
every other address. -/
def sampleEnv : Env where
  restricted_courses := ["embargoed-course"]
  ipfilter := { blacklist_ips := ["1.2.3.4"], whitelist_ips := ["1.2.3.4", "5.6.7.8"] }
  rules := [⟨"embargoed-course", "CU", RuleType.black_list⟩]
  geoip := fun ip => if ip == "9.9.9.9" then some "CU" else none
  geoipv6 := fun _ => none

/-- The observable behaviour of `_check_ip_lists` under Python truthiness:
its result is truthy exactly when the address is blacklisted — the whitelist
branch and the implicit fall-through both produce `None`. -/
theorem truthy_check_ip_lists (f : IPFilter) (ip : String) :
    truthy (check_ip_lists f ip) = f.blacklist_ips.contains ip := by
  unfold check_ip_lists
  cases hb : f.blacklist_ips.contains ip <;> simp [hb, truthy]

/-- C1: when the restricted-course registry does not report the course as
restricted, `check_access` allows for every user, IP address and cache state,
leaves the cache untouched, and consults no collaborator beyond the registry
itself — no IP-list, geolocation, country-rule, cache or profile access
appears in the trace. -/
theorem check_access_allow_when_not_restricted (env : Env) (user : User)
    (ip_address course_key : String) (c : Cache)
    (h : is_restricted_course env course_key = false) :
    check_access env user ip_address course_key c =
      (none, c, [Event.restricted_check course_key]) := by
  simp [check_access, h]

/-- Witness for C1: a concrete unrestricted course, evaluated for a user from
a blacklisted IP. -/
theorem check_access_allow_when_not_restricted_witness :
    is_restricted_course sampleEnv "open-course" = false ∧
    check_access sampleEnv ⟨7, none⟩ "1.2.3.4" "open-course" [] =
      (none, [], [Event.restricted_check "open-course"]) :=
  ⟨by decide,
    check_access_allow_when_not_restricted sampleEnv ⟨7, none⟩ "1.2.3.4" "open-course" []
      (by decide)⟩

/-- C2: for a restricted course and a blacklisted IP, `check_access` denies
with the `ip_blacklist` reason, whatever the whitelist contains (the
statement places no condition on the whitelist), and stops right after the
IP-list check. -/
theorem check_access_deny_ip_blacklisted (env : Env) (user : User)
    (ip_address course_key : String) (c : Cache)
    (hres : is_restricted_course env course_key = true)
    (hbl : ip_address ∈ env.ipfilter.blacklist_ips) :
    check_access env user ip_address course_key c =
      (some (Reason.ip_blacklist ip_address (from_course_msg course_key true)), c,
        [Event.restricted_check course_key, Event.ip_lists_check ip_address]) := by
  simp [check_access, hres, truthy_check_ip_lists, hbl]

/-- Witness for C2: the IP "1.2.3.4" of `sampleEnv` is in the blacklist and
also in the whitelist, and the evaluation still denies as blacklisted. -/
theorem check_access_deny_ip_blacklisted_witness :
    is_restricted_course sampleEnv "embargoed-course" = true ∧
"1.2.3.4" ∈ sampleEnv.ipfilter.blacklist_ips ∧
    "1.2.3.4" ∈ sampleEnv.ipfilter.whitelist_ips ∧
    check_access sampleEnv ⟨7, none⟩ "1.2.3.4" "embargoed-course" [] =
      (some (Reason.ip_blacklist "1.2.3.4" (from_course_msg "embargoed-course" true)), [],
        [Event.restricted_check "embargoed-course", Event.ip_lists_check "1.2.3.4"]) :=
  ⟨by decide, by decide, by decide,
    check_access_deny_ip_blacklisted sampleEnv ⟨7, none⟩ "1.2.3.4" "embargoed-course" []
      (by decide) (by decide)⟩

/-- C3: for a restricted course and a non-blacklisted IP whose
geolocation-resolved country is blocked for the course, `check_access`
denies with the `ip_country` reason; the trace is exactly registry check,
IP-list check, geolocation lookup and country-rule check, in that order, so
neither the cache nor the profile is ever read, and the cache state is
returned unchanged. -/
theorem check_access_deny_ip_country (env : Env) (user : User)
    (ip_address course_key : String) (c : Cache)
    (hres : is_restricted_course env course_key = true)
    (hbl : ip_address ∉ env.ipfilter.blacklist_ips)
    (hcountry : check_user_country env.rules (country_code_from_ip env ip_address)
      course_key = true) :
    check_access env user ip_address course_key c =
      (some (Reason.ip_country ip_address (country_code_from_ip env ip_address)
          (from_course_msg course_key true)), c,
        [Event.restricted_check course_key, Event.ip_lists_check ip_address,
          Event.geo_lookup ip_address,
          Event.country_check course_key (country_code_from_ip env ip_address)]) := by
  simp [check_access, hres, truthy_check_ip_lists, hbl, hcountry]

/-- Witness for C3: "9.9.9.9" resolves to "CU", which a deny rule blocks for
the embargoed course. -/
theorem check_access_deny_ip_country_witness :
    is_restricted_course sampleEnv "embargoed-course" = true ∧
"9.9.9.9" ∉ sampleEnv.ipfilter.blacklist_ips ∧
    check_user_country sampleEnv.rules (country_code_from_ip sampleEnv "9.9.9.9")
      "embargoed-course" = true ∧
    check_access sampleEnv ⟨7, some ⟨some "fr"⟩⟩ "9.9.9.9" "embargoed-course" [] =
      (some (Reason.ip_country "9.9.9.9" (country_code_from_ip sampleEnv "9.9.9.9")
          (from_course_msg "embargoed-course" true)), [],
        [Event.restricted_check "embargoed-course", Event.ip_lists_check "9.9.9.9",
          Event.geo_lookup "9.9.9.9",
          Event.country_check "embargoed-course" (country_code_from_ip sampleEnv "9.9.9.9")]) :=
  ⟨by decide, by decide, by decide,
    check_access_deny_ip_country sampleEnv ⟨7, some ⟨some "fr"⟩⟩ "9.9.9.9" "embargoed-course" []
      (by decide) (by decide) (by decide)⟩

/-- C5: the whitelist never affects the decision.  For a restricted course
and a non-blacklisted IP, replacing the whitelist by any other list — in
particular adding or removing the requesting IP — leaves the result, the
cache state and the trace of every evaluation unchanged, so a whitelisted IP
does not skip the IP-country or profile-country checks. -/
theorem check_access_whitelist_irrelevant (env : Env) (wl : List String) (user : User)
    (ip_address course_key : String) (c : Cache)
    (hres : is_restricted_course env course_key = true)
    (hbl : ip_address ∉ env.ipfilter.blacklist_ips) :
    check_access { env with ipfilter := { env.ipfilter with whitelist_ips := wl } }
        user ip_address course_key c =
      check_access env user ip_address course_key c := by
  have hres2 : course_key ∈ env.restricted_courses := by
    simpa [is_restricted_course] using hres
  simp [check_access, is_restricted_course, truthy_check_ip_lists, country_code_from_ip,
    hres2, hbl]

/-- Witness for C5: adding "9.9.9.9" to the whitelist does not change the
decision for the embargoed course. -/
theorem check_access_whitelist_irrelevant_witness :
    is_restricted_course sampleEnv "embargoed-course" = true ∧
"9.9.9.9" ∉ sampleEnv.ipfilter.blacklist_ips ∧
    check_access { sampleEnv with
        ipfilter := { sampleEnv.ipfilter with whitelist_ips := ["9.9.9.9"] } }
        ⟨7, none⟩ "9.9.9.9" "embargoed-course" [] =
      check_access sampleEnv ⟨7, none⟩ "9.9.9.9" "embargoed-course" [] :=
  ⟨by decide, by decide,
    check_access_whitelist_irrelevant sampleEnv ["9.9.9.9"] ⟨7, none⟩ "9.9.9.9"
      "embargoed-course" [] (by decide) (by decide)⟩

/-- C4: when the geolocation resolver finds no country for the requesting
IP, `check_access` (a total function — it cannot raise) treats the miss as
matching no country rule, proceeds to the profile-country check (the trace
shows the cache read of the profile lookup), and, when that check finds no
block either, the decision is Allow. -/
theorem check_access_geo_miss_fails_open (env : Env) (user : User)
    (ip_address course_key : String) (c : Cache)
    (hres : is_restricted_course env course_key = true)
    (hbl : ip_address ∉ env.ipfilter.blacklist_ips)
    (hgeo : country_code_from_ip env ip_address = none)
    (hprof : check_user_country env.rules (some (get_user_country_from_profile user c).1)
      course_key = false) :
    (check_access env user ip_address course_key c).1 = none ∧
    Event.cache_read (cache_key_for user) ∈
      (check_access env user ip_address course_key c).2.2 := by
  have hipc : check_user_country env.rules (country_code_from_ip env ip_address)
      course_key = false := by
    rw [hgeo]; rfl
  constructor
  · simp [check_access, hres, truthy_check_ip_lists, hbl, hipc, hprof]
  · simp [check_access, hres, truthy_check_ip_lists, hbl, hipc, hprof,
      cache_read_mem_profile_trace]

/-- Witness for C4: the sample geolocation database misses on "8.8.8.8", the
user's profile country "FR" is not blocked, and the evaluation allows after
consulting the profile cache. -/
theorem check_access_geo_miss_fails_open_witness :
    is_restricted_course sampleEnv "embargoed-course" = true ∧
    country_code_from_ip sampleEnv "8.8.8.8" = none ∧
    (check_access sampleEnv ⟨7, some ⟨some "fr"⟩⟩ "8.8.8.8" "embargoed-course" []).1 = none ∧
    Event.cache_read (cache_key_for ⟨7, some ⟨some "fr"⟩⟩) ∈
      (check_access sampleEnv ⟨7, some ⟨some "fr"⟩⟩ "8.8.8.8" "embargoed-course" []).2.2 :=
  ⟨by decide, by decide,
    (check_access_geo_miss_fails_open sampleEnv ⟨7, some ⟨some "fr"⟩⟩ "8.8.8.8"
      "embargoed-course" [] (by decide) (by decide) (by decide) (by decide)).1,
    (check_access_geo_miss_fails_open sampleEnv ⟨7, some ⟨some "fr"⟩⟩ "8.8.8.8"
      "embargoed-course" [] (by decide) (by decide) (by decide) (by decide)).2⟩

/-- C6: `get_user_country_from_profile` is a read-through cache.  On a hit
the cached value is returned unchanged, the cache is untouched and the
profile is not read (the trace is the lone cache read); on a miss the value
derived from the profile is written to the cache before being returned, and
a second call on the resulting cache state returns the same value while
touching neither the profile nor the cache contents. -/
theorem get_user_country_read_through (user : User) (c : Cache) :
    (∀ v, cache_get c (cache_key_for user) = some v →
      get_user_country_from_profile user c =
        (v, c, [Event.cache_read (cache_key_for user)])) ∧
    (cache_get c (cache_key_for user) = none →
      get_user_country_from_profile user c =
        (profile_country_value user,
          cache_set c (cache_key_for user) (profile_country_value user),
          [Event.cache_read (cache_key_for user), Event.profile_read user.id,
            Event.cache_write (cache_key_for user) (profile_country_value user)]) ∧
      get_user_country_from_profile user (get_user_country_from_profile user c).2.1 =
        ((get_user_country_from_profile user c).1,
          (get_user_country_from_profile user c).2.1,
          [Event.cache_read (cache_key_for user)])) := by
  refine ⟨fun v hv => ?_, fun h => ?_⟩
  · simp [get_user_country_from_profile, hv]
  · have h1 : get_user_country_from_profile user c =
        (profile_country_value user,
          cache_set c (cache_key_for user) (profile_country_value user),
          [Event.cache_read (cache_key_for user), Event.profile_read user.id,
            Event.cache_write (cache_key_for user) (profile_country_value user)]) := by
      simp [get_user_country_from_profile, h]
    refine ⟨h1, ?_⟩
    rw [h1]
    simp [get_user_country_from_profile, cache_get_set]

/-- Witness for C6: a hit on a pre-populated cache returns the stored value
without touching the profile, and a miss on the empty cache writes the
derived value so the follow-up call is a pure cache hit. -/
theorem get_user_country_read_through_witness :
    (get_user_country_from_profile ⟨7, some ⟨some "fr"⟩⟩
        [("user.7.profile.country", "AQ")] =
      ("AQ", [("user.7.profile.country", "AQ")],
        [Event.cache_read "user.7.profile.country"])) ∧
    (get_user_country_from_profile ⟨7, some ⟨some "fr"⟩⟩ [] =
      ("FR", [("user.7.profile.country", "FR")],
        [Event.cache_read "user.7.profile.country", Event.profile_read 7,
          Event.cache_write "user.7.profile.country" "FR"]) ∧
      get_user_country_from_profile ⟨7, some ⟨some "fr"⟩⟩
          (get_user_country_from_profile ⟨7, some ⟨some "fr"⟩⟩ []).2.1 =
        ((get_user_country_from_profile ⟨7, some ⟨some "fr"⟩⟩ []).1,
          (get_user_country_from_profile ⟨7, some ⟨some "fr"⟩⟩ []).2.1,
          [Event.cache_read "user.7.profile.country"])) :=
  ⟨(get_user_country_read_through ⟨7, some ⟨some "fr"⟩⟩
      [("user.7.profile.country", "AQ")]).1 "AQ" (by decide),
    (get_user_country_read_through ⟨7, some ⟨some "fr"⟩⟩ []).2 (by decide)⟩

/-- C7: every evaluation of `check_access` yields a value — Allow (`none`)
or a Deny carrying exactly one of the three taxonomy reasons — so a policy
denial is never an exception; and each of the four outcomes is realized by
some concrete input. -/
theorem check_access_outcome_taxonomy :
    (∀ (env : Env) (user : User) (ip_address course_key : String) (c : Cache),
      (check_access env user ip_address course_key c).1 = none ∨
      (∃ a b, (check_access env user ip_address course_key c).1 =
        some (Reason.ip_blacklist a b)) ∨
      (∃ a b d, (check_access env user ip_address course_key c).1 =
        some (Reason.ip_country a b d)) ∨
      (∃ a b d, (check_access env user ip_address course_key c).1 =
        some (Reason.profile_country a b d))) ∧
    (check_access sampleEnv ⟨7, none⟩ "5.6.7.8" "open-course" []).1 = none ∧
    (check_access sampleEnv ⟨7, none⟩ "1.2.3.4" "embargoed-course" []).1 =
      some (Reason.ip_blacklist "1.2.3.4" "from course embargoed-course") ∧
    (check_access sampleEnv ⟨7, none⟩ "9.9.9.9" "embargoed-course" []).1 =
      some (Reason.ip_country "9.9.9.9" (some "CU") "from course embargoed-course") ∧
    (check_access sampleEnv ⟨7, some ⟨some "cu"⟩⟩ "8.8.8.8" "embargoed-course" []).1 =
      some (Reason.profile_country 7 "CU" "from course embargoed-course") := by
  refine ⟨fun env user ip_address course_key c => ?_, by decide, by decide, by decide, by decide⟩
  cases hres : is_restricted_course env course_key with
  | false =>
    left
    simp [check_access, hres]
  | true =>
    cases hb : truthy (check_ip_lists env.ipfilter ip_address) with
    | true =>
      right; left
      exact ⟨ip_address, from_course_msg course_key true, by simp [check_access, hres, hb]⟩
    | false =>
      cases hc : check_user_country env.rules (country_code_from_ip env ip_address)
          course_key with
      | true =>
        right; right; left
        exact ⟨ip_address, country_code_from_ip env ip_address,
          from_course_msg course_key true, by simp [check_access, hres, hb, hc]⟩
      | false =>
        cases hp : check_user_country env.rules
            (some (get_user_country_from_profile user c).1) course_key with
        | true =>
          right; right; right
          exact ⟨unique_id_for_user user, (get_user_country_from_profile user c).1,
            from_course_msg course_key true, by simp [check_access, hres, hb, hc, hp]⟩
        | false =>
          left
          simp [check_access, hres, hb, hc, hp]

/-- The upper-casing map preserves string length. -/
theorem upper_length (s : String) : (upper s).length = s.length := by
  show (s.data.map Char.toUpper).length = s.data.length
  exact List.length_map s.data Char.toUpper

/-- C8: on a cache miss, `get_user_country_from_profile` returns — and
caches — either the empty string (no profile, or a `None` profile country
code) or the user's profile country code converted to upper case; under the
data-model invariant that stored profile country codes are 2-letter codes,
the returned value has length 0 or 2, and it is a `String` by type, never an
absent value. -/
theorem get_user_country_value_shape (user : User) (c : Cache)
    (hmiss : cache_get c (cache_key_for user) = none)
    (hlen : ∀ p code, user.profile = some p → p.country_code = some code →
      code.length = 2) :
    ((get_user_country_from_profile user c).1 = "" ∨
      ∃ p code, user.profile = some p ∧ p.country_code = some code ∧
        (get_user_country_from_profile user c).1 = upper code) ∧
    (get_user_country_from_profile user c).2.1 =
      cache_set c (cache_key_for user) ((get_user_country_from_profile user c).1) ∧
    ((get_user_country_from_profile user c).1.length = 0 ∨
      (get_user_country_from_profile user c).1.length = 2) := by
  have h1 : get_user_country_from_profile user c =
      (profile_country_value user,
        cache_set c (cache_key_for user) (profile_country_value user),
        [Event.cache_read (cache_key_for user), Event.profile_read user.id,
          Event.cache_write (cache_key_for user) (profile_country_value user)]) := by
    simp [get_user_country_from_profile, hmiss]
  rw [h1]
  cases hprof : user.profile with
  | none => simp [profile_country_value, hprof]
  | some p =>
    cases hpc : p.country_code with
    | none => simp [profile_country_value, hprof, hpc]
    | some code =>
      have hc2 : code.length = 2 := hlen p code hprof hpc
      refine ⟨Or.inr ⟨p, code, rfl, hpc, ?_⟩, rfl, Or.inr ?_⟩
      · simp [profile_country_value, hprof, hpc]
      · simp [profile_country_value, hprof, hpc, upper_length, hc2]

/-- Witness for C8: a user whose profile country is "fr" gets "FR" cached
and returned on an empty cache. -/
theorem get_user_country_value_shape_witness :
    ((get_user_country_from_profile ⟨7, some ⟨some "fr"⟩⟩ []).1 = "" ∨
      ∃ p code, (⟨7, some ⟨some "fr"⟩⟩ : User).profile = some p ∧
        p.country_code = some code ∧
        (get_user_country_from_profile ⟨7, some ⟨some "fr"⟩⟩ []).1 = upper code) ∧
    (get_user_country_from_profile ⟨7, some ⟨some "fr"⟩⟩ []).2.1 =
      cache_set [] (cache_key_for ⟨7, some ⟨some "fr"⟩⟩)
        ((get_user_country_from_profile ⟨7, some ⟨some "fr"⟩⟩ []).1) ∧
    ((get_user_country_from_profile ⟨7, some ⟨some "fr"⟩⟩ []).1.length = 0 ∨
      (get_user_country_from_profile ⟨7, some ⟨some "fr"⟩⟩ []).1.length = 2) :=
  get_user_country_value_shape ⟨7, some ⟨some "fr"⟩⟩ [] (by decide)
    (by
      intro p code hp hc
      cases hp
      cases hc
      rfl)

end Embargo

namespace CourseApi

/-- A concrete view environment.  The parser accepts the slash-separated
deprecated format (any id containing a '/', such as the test suite's
"invalid" id "foo/bar/baz") and fails with `InvalidKeyError` on anything
else, as `CourseKey.from_string` does; the store holds the two courses the
test suite creates. -/
def sampleViewEnv : ViewEnv where
  from_string := fun s =>
    if s.data.contains '/' then Except.ok s else Except.error (Exc.invalid_key s)
  store := {
    courses := [⟨"edX/DemoX/2014", ["Homework", "Exam"]⟩, ⟨"MTD/Empty/2014", []⟩]
    has_course := fun k => k == "edX/DemoX/2014" || k == "MTD/Empty/2014"
    get_course := fun k =>
      if k == "edX/DemoX/2014" then some ⟨"edX/DemoX/2014", ["Homework", "Exam"]⟩
      else if k == "MTD/Empty/2014" then some ⟨"MTD/Empty/2014", []⟩
      else none
    get_course_structure := fun k => "structure of " ++ k }

/-- C9: the claim fails on the code.  At a course id the parser cannot parse
("garbage"), `CourseStructure.get_object` and `CourseGradingPolicy.get_queryset`
— whose `CourseKey.from_string` call sits in no exception handler — propagate
the parser's `InvalidKeyError`, and `get_course_or_404`, which catches only
`ValueError`, propagates it as well: none of the three surfaces `Http404`.
At a parseable but unknown id ("foo/bar/baz", the test suite's invalid id)
all three do answer `Http404`, which is the only case the tests exercise. -/
theorem course_views_parse_failure_not_http404 :
    CourseStructure.get_object sampleViewEnv "garbage" =
      Except.error (Exc.invalid_key "garbage") ∧
    CourseGradingPolicy.get_queryset sampleViewEnv "garbage" =
      Except.error (Exc.invalid_key "garbage") ∧
    get_course_or_404 sampleViewEnv "garbage" =
      Except.error (Exc.invalid_key "garbage") ∧
    Exc.invalid_key "garbage" ≠ Exc.http404 ∧
    CourseStructure.get_object sampleViewEnv "foo/bar/baz" =
      Except.error Exc.http404 ∧
    CourseGradingPolicy.get_queryset sampleViewEnv "foo/bar/baz" =
      Except.error Exc.http404 ∧
    get_course_or_404 sampleViewEnv "foo/bar/baz" =
      Except.error Exc.http404 :=
  ⟨rfl, rfl, rfl, by decide, rfl, rfl, rfl⟩

/-- Binding an exceptional computation into the final sort of
`CourseList.get_queryset` yields a sorted list whenever it succeeds. -/
theorem sorted_of_sort_bind {e : Except Exc (List Course)} {l : List Course}
    (h : (e >>= fun ds => Except.ok (ds.insertionSort by_id)) = Except.ok l) :
    l.Sorted by_id := by
  cases e with
  | error err => simp [Bind.bind, Except.bind] at h
  | ok ds =>
    simp [Bind.bind, Except.bind] at h
    rw [← h]
    exact List.sorted_insertionSort by_id ds

/-- C10: whenever `CourseList.get_queryset` returns a list of course
descriptors — with the `course_id` query parameter filtering the list or
absent — that list is sorted in ascending order of course id. -/
theorem course_list_queryset_sorted (env : ViewEnv) (query : Option String)
    (l : List Course) (h : CourseList.get_queryset env query = Except.ok l) :
    l.Sorted by_id := by
  unfold CourseList.get_queryset at h
  split at h
  · split at h
    · exact sorted_of_sort_bind h
    · exact sorted_of_sort_bind h
  · exact sorted_of_sort_bind h

/-- Witness for C10: listing all courses of the sample store returns them
sorted by course id ("MTD/Empty/2014" before "edX/DemoX/2014", as capital
letters order before lower-case ones). -/
theorem course_list_queryset_sorted_witness :
    CourseList.get_queryset sampleViewEnv none =
      Except.ok [⟨"MTD/Empty/2014", []⟩, ⟨"edX/DemoX/2014", ["Homework", "Exam"]⟩] ∧
    List.Sorted by_id
      [⟨"MTD/Empty/2014", []⟩, ⟨"edX/DemoX/2014", ["Homework", "Exam"]⟩] :=
  ⟨rfl, course_list_queryset_sorted sampleViewEnv none _ rfl⟩

end CourseApi
